import Mathlib

/-!
# Verification of the Drive ingestion job (`src/main.py`)

Shallow embedding of the batch job's core logic.  External collaborators
(the Drive API client and the csv library's row reader) are modelled as
explicit oracle parameters: `DriveService` holds the two network entry
points the code uses (`files().get_media` and `files().export_media`),
each returning either the transported bytes or an `HttpError` message;
the `csvReader` parameter stands for `csv.reader` applied to the decoded
CSV text, yielding the parsed rows.  Python byte strings are `List Nat`,
`bytes.decode('utf-8')` is the strict decoder `decodeUtf8`, and an
uncaught Python exception is `Except.error`; a Python function that can
also return `None` yields `Option String`.
-/

deriving instance DecidableEq for Except

/-- The one uncaught exception class relevant to this program:
`UnicodeDecodeError` raised by `bytes.decode('utf-8')`, which no handler
in `src/main.py` catches (the handlers catch only `HttpError`). -/
inductive PyExc where
  | unicodeDecodeError
deriving DecidableEq

/-- Strict UTF-8 decoding of a byte sequence, modelling Python's
`bytes.decode('utf-8')`: rejects stray continuation bytes, overlong
encodings, surrogate code points, code points above U+10FFFF and
truncated sequences.  `none` models a raised `UnicodeDecodeError`. -/
def utf8Decode : List Nat → Option (List Char)
  | [] => some []
  | b0 :: rest =>
    if b0 < 0x80 then
      (utf8Decode rest).map (fun cs => Char.ofNat b0 :: cs)
    else if b0 < 0xC2 then none
    else if b0 < 0xE0 then
      match rest with
      | b1 :: rest1 =>
        if 0x80 ≤ b1 && b1 < 0xC0 then
          (utf8Decode rest1).map
            (fun cs => Char.ofNat ((b0 - 0xC0) * 0x40 + (b1 - 0x80)) :: cs)
        else none
      | [] => none
    else if b0 < 0xF0 then
      match rest with
      | b1 :: b2 :: rest2 =>
        if 0x80 ≤ b1 && b1 < 0xC0 && 0x80 ≤ b2 && b2 < 0xC0 then
          let cp := (b0 - 0xE0) * 0x1000 + (b1 - 0x80) * 0x40 + (b2 - 0x80)
          if cp < 0x800 then none
          else if 0xD800 ≤ cp && cp ≤ 0xDFFF then none
          else (utf8Decode rest2).map (fun cs => Char.ofNat cp :: cs)
        else none
      | _ => none
    else if b0 < 0xF5 then
      match rest with
      | b1 :: b2 :: b3 :: rest3 =>
        if 0x80 ≤ b1 && b1 < 0xC0 && 0x80 ≤ b2 && b2 < 0xC0 && 0x80 ≤ b3 && b3 < 0xC0 then
          let cp := (b0 - 0xF0) * 0x40000 + (b1 - 0x80) * 0x1000
            + (b2 - 0x80) * 0x40 + (b3 - 0x80)
          if cp < 0x10000 then none
          else if 0x10FFFF < cp then none
          else (utf8Decode rest3).map (fun cs => Char.ofNat cp :: cs)
        else none
      | _ => none
    else none

/-- `bytes.decode('utf-8')` returning a `String`. -/
def decodeUtf8 (bs : List Nat) : Option String := (utf8Decode bs).map String.mk

/-- UTF-8 bytes of an ASCII string (used to build concrete inputs). -/
def strBytes (s : String) : List Nat := s.data.map Char.toNat

/-- Python `str.startswith`, character by character, with the pattern
first: `pyStartsWith p.data s.data` is `s.startswith(p)`. -/
def pyStartsWith : List Char → List Char → Bool
  | [], _ => true
  | _ :: _, [] => false
  | p :: ps, c :: cs => p == c && pyStartsWith ps cs

/-- Python `sep.join(parts)`. -/
def pyJoin (sep : String) : List String → String
  | [] => ""
  | [x] => x
  | x :: y :: rest => x ++ sep ++ pyJoin sep (y :: rest)

/-- The Drive API surface `src/main.py` uses, as response oracles: both
`files().get_media(fileId=...)` (keyed by file id) and
`files().export_media(fileId=..., mimeType=...)` (keyed by file id and
export MIME type) deliver either the payload bytes or the message of a
raised `HttpError`. -/
structure DriveService where
  getMedia : String → Except String (List Nat)
  exportMedia : String → String → Except String (List Nat)

/-- One entry of the Drive listing response: `files(id, name, mimeType,
modifiedTime)` (src/main.py line 163). -/
structure DriveFile where
  id : String
  name : String
  mimeType : String
  modifiedTime : String
deriving DecidableEq

/-- One output record, i.e. one NDJSON line of the uploaded file
(src/main.py lines 179-185); `json.dumps` serialises each record
separately, so lines correspond one-to-one, in order, to records. -/
structure Record where
  document_id : String
  file_name : String
  text_content : String
  last_modified_date : String
  source : String
deriving DecidableEq

/-- Building the record appended for a successfully extracted file
(src/main.py lines 179-185). -/
def mkRecord (file : DriveFile) (extracted_text : String) : Record :=
  { document_id := file.id
    file_name := file.name
    text_content := extracted_text
    last_modified_date := file.modifiedTime
    source := "Google Drive" }

/-- The `MIMETYPES` dict (src/main.py lines 26-35), as an association
list in source order. -/
def MIMETYPES : List (String × String) :=
  [("application/vnd.google-apps.document", "text/plain"),
   ("application/vnd.google-apps.presentation", "text/plain"),
   ("application/vnd.google-apps.spreadsheet", "text/csv"),
   ("text/plain", "text/plain"),
   ("application/pdf", "application/pdf")]

/-- Python `MIMETYPES[m]` guarded by `m in MIMETYPES` (key lookup). -/
def mimetypesLookup (m : String) : Option String :=
  (MIMETYPES.find? (fun p => p.1 == m)).map Prod.snd

/-- Python `MIMETYPES.values()`. -/
def mimetypesValues : List String := MIMETYPES.map Prod.snd

/-- `download_file` (src/main.py lines 39-66): fetch the raw bytes via
`get_media`; an `HttpError` during the chunked download is caught and
becomes the string `"Download Failed: ..."`; for MIME type
`application/pdf` a fixed placeholder is returned without decoding;
otherwise the bytes are decoded as UTF-8 (a decode failure raises
`UnicodeDecodeError`, which the `except HttpError` clause does not
catch). -/
def download_file (drive_service : DriveService) (file_id mime_type : String) :
    Except PyExc String :=
  match drive_service.getMedia file_id with
  | .error error => .ok ("Download Failed: " ++ error)
  | .ok file_content =>
    if mime_type == "application/pdf" then
      .ok "Binary Content (PDF) Downloaded. OCR/Extraction required."
    else
      match decodeUtf8 file_content with
      | none => .error PyExc.unicodeDecodeError
      | some text => .ok text

/-- `export_google_doc` (src/main.py lines 69-76): export via
`export_media` and decode as UTF-8; an `HttpError` becomes
`"Export Failed: ..."`, a decode failure raises. -/
def export_google_doc (drive_service : DriveService) (file_id export_mime : String) :
    Except PyExc String :=
  match drive_service.exportMedia file_id export_mime with
  | .error error => .ok ("Export Failed: " ++ error)
  | .ok bytes =>
    match decodeUtf8 bytes with
    | none => .error PyExc.unicodeDecodeError
    | some text => .ok text

/-- `extract_sheet_content` (src/main.py lines 79-102): export the sheet
as CSV, decode, parse rows with `csv.reader` (the `csvReader` oracle),
join the non-empty cells of each row with `" "`, join the rows with
`" | "`; an `HttpError` becomes `"Sheet Export Failed: ..."`, a decode
failure raises. -/
def extract_sheet_content (drive_service : DriveService)
    (csvReader : String → List (List String)) (file_id : String) :
    Except PyExc String :=
  match drive_service.exportMedia file_id "text/csv" with
  | .error error => .ok ("Sheet Export Failed: " ++ error)
  | .ok csv_bytes =>
    match decodeUtf8 csv_bytes with
    | none => .error PyExc.unicodeDecodeError
    | some csv_string =>
      .ok (pyJoin " | " ((csvReader csv_string).map
        (fun row => pyJoin " " (row.filter (fun c => c != "")))))

/-- `extract_file_content` (src/main.py lines 105-128), the router: when
`file_mime` is a key of `MIMETYPES`, branch on the export format (CSV to
the sheet flattener, plain text to the document exporter; any other
export format falls off the end of the Python function and returns
`None`); otherwise, when `file_mime` is one of `MIMETYPES.values()`,
delegate to `download_file`; otherwise return `""`. -/
def extract_file_content (drive_service : DriveService)
    (csvReader : String → List (List String))
    (file_id file_mime file_name : String) : Except PyExc (Option String) :=
  match mimetypesLookup file_mime with
  | some export_mime =>
    if export_mime == "text/csv" then
      (extract_sheet_content drive_service csvReader file_id).map some
    else if export_mime == "text/plain" then
      (export_google_doc drive_service file_id export_mime).map some
    else
      .ok none
  | none =>
    if file_mime ∈ mimetypesValues then
      (download_file drive_service file_id file_mime).map some
    else
      .ok (some "")

/-- The failure-marker tuple of the inclusion check
(src/main.py line 177). -/
def failureMarkers : List String :=
  ["Content extraction skipped", "Export Failed", "Download Failed"]

/-- The inclusion condition of src/main.py line 177 for a string result:
`extracted_text and not extracted_text.startswith((...))` — non-empty and
starting with none of the markers. -/
def includeFilter (extracted_text : String) : Bool :=
  extracted_text != "" &&
    !(failureMarkers.any (fun m => pyStartsWith m.data extracted_text.data))

/-- The per-file loop of `run_ingestion_job` (src/main.py lines 172-189):
each file's content is extracted in listing order; an uncaught exception
aborts the whole loop; a `None` result or a string failing
`includeFilter` is skipped; otherwise the file's record is appended. -/
def processFiles (drive_service : DriveService)
    (csvReader : String → List (List String)) :
    List DriveFile → Except PyExc (List Record)
  | [] => .ok []
  | file :: rest =>
    match extract_file_content drive_service csvReader file.id file.mimeType file.name with
    | .error e => .error e
    | .ok extracted_text =>
      match processFiles drive_service csvReader rest with
      | .error e => .error e
      | .ok recs =>
        match extracted_text with
        | none => .ok recs
        | some s => if includeFilter s then .ok (mkRecord file s :: recs) else .ok recs

/-- The record the loop body produces for one file: `some` its record
when the extraction returns without raising and passes the inclusion
check, `none` when the file is skipped (an `Except.error` outcome never
reaches the append). -/
def recordFor (drive_service : DriveService)
    (csvReader : String → List (List String)) (file : DriveFile) : Option Record :=
  match extract_file_content drive_service csvReader file.id file.mimeType file.name with
  | .ok (some s) => if includeFilter s then some (mkRecord file s) else none
  | _ => none

/-- End state of one run (src/main.py lines 193-198): either the NDJSON
records were uploaded to the bucket, or the upload was skipped with the
informational message. -/
inductive JobOutcome where
  | uploaded (records : List Record)
  | skippedUpload
deriving DecidableEq

/-- `run_ingestion_job` from the listing result on (src/main.py lines
169-198): build the records, then upload exactly when the record list is
non-empty, otherwise report informationally; an exception from the loop
propagates (the run aborts before any upload). -/
def run_ingestion_job (drive_service : DriveService)
    (csvReader : String → List (List String)) (files : List DriveFile) :
    Except PyExc JobOutcome :=
  match processFiles drive_service csvReader files with
  | .error e => .error e
  | .ok jsonl_records =>
    if jsonl_records.isEmpty then .ok JobOutcome.skippedUpload
    else .ok (JobOutcome.uploaded jsonl_records)

/-- Following the spec's words (section 4.1 and claim C4): the supported
set — native document, native presentation, native spreadsheet, plain
text, PDF.  Kept separate from `MIMETYPES` so the two can be compared. -/
def specSupportedTypes : List String :=
  ["application/vnd.google-apps.document",
   "application/vnd.google-apps.presentation",
   "application/vnd.google-apps.spreadsheet",
   "text/plain",
   "application/pdf"]

/-- A csv.reader oracle returning no rows (for runs that never parse). -/
def rNone : String → List (List String) := fun _ => []

/-- A drive oracle whose export endpoint always raises an `HttpError`. -/
def svcSheetFail : DriveService :=
  { getMedia := fun _ => .ok []
    exportMedia := fun _ _ => .error "quotaExceeded" }

/-- A drive oracle distinguishing the two endpoints: downloads yield the
bytes of "DOWNLOADED", exports yield the bytes of "EXPORTED". -/
def svcDistinct : DriveService :=
  { getMedia := fun _ => .ok (strBytes "DOWNLOADED")
    exportMedia := fun _ _ => .ok (strBytes "EXPORTED") }

/-- A drive oracle delivering the invalid UTF-8 byte 0xFF everywhere. -/
def svcBadBytes : DriveService :=
  { getMedia := fun _ => .ok [0xFF]
    exportMedia := fun _ _ => .ok [0xFF] }

/-- A drive oracle whose transport always fails with message "boom". -/
def svcErr : DriveService :=
  { getMedia := fun _ => .error "boom"
    exportMedia := fun _ _ => .error "boom" }

/-- A drive oracle whose exports yield the bytes of "Hello". -/
def svcHello : DriveService :=
  { getMedia := fun _ => .ok (strBytes "Hello")
    exportMedia := fun _ _ => .ok (strBytes "Hello") }

/-- A drive oracle whose exports yield the CSV bytes "a,,b\n,c,\n". -/
def svcCsvAB : DriveService :=
  { getMedia := fun _ => .ok []
    exportMedia := fun _ _ => .ok (strBytes "a,,b\n,c,\n") }

/-- A csv.reader oracle parsing every input to the two rows of C6. -/
def rAB : String → List (List String) := fun _ => [["a", "", "b"], ["", "c", ""]]

/-- A drive oracle whose exports yield the CSV bytes ",\n,\n". -/
def svcCsvEmpty : DriveService :=
  { getMedia := fun _ => .ok []
    exportMedia := fun _ _ => .ok (strBytes ",\n,\n") }

/-- A csv.reader oracle parsing every input to two rows of empty cells. -/
def rEmptyCells : String → List (List String) := fun _ => [["", ""], ["", ""]]

/-- A listing entry for a native Google spreadsheet. -/
def sheetFile : DriveFile :=
  { id := "s1", name := "budget", mimeType := "application/vnd.google-apps.spreadsheet",
    modifiedTime := "2026-01-01T00:00:00.000Z" }

/-- A listing entry for a native Google document. -/
def docFile : DriveFile :=
  { id := "d1", name := "notes", mimeType := "application/vnd.google-apps.document",
    modifiedTime := "2026-01-02T00:00:00.000Z" }

/-- A listing entry for an unsupported image file. -/
def pngFile : DriveFile :=
  { id := "p1", name := "pic.png", mimeType := "image/png",
    modifiedTime := "2026-01-03T00:00:00.000Z" }

/-! ## Helper lemmas -/

/-- `startswith` is false when the first characters differ. -/
theorem pyStartsWith_head_ne (pl : List Char) (c : Char) (cs : List Char) (p : Char)
    (hp : pl.head? = some p) (h : (p == c) = false) :
    pyStartsWith pl (c :: cs) = false := by
  cases pl with
  | nil => simp at hp
  | cons q qs =>
    simp only [List.head?_cons, Option.some.injEq] at hp
    subst hp
    simp [pyStartsWith, h]

/-- Any string whose first character is a blank passes the inclusion
check: it is non-empty and no failure marker starts with a blank. -/
theorem includeFilter_space_head (cs : List Char) :
    includeFilter (String.mk (' ' :: cs)) = true := by
  have h1 := pyStartsWith_head_ne ("Content extraction skipped".data) ' ' cs 'C'
    (by decide) (by decide)
  have h2 := pyStartsWith_head_ne ("Export Failed".data) ' ' cs 'E' (by decide) (by decide)
  have h3 := pyStartsWith_head_ne ("Download Failed".data) ' ' cs 'D' (by decide) (by decide)
  simp [includeFilter, failureMarkers, h1, h2, h3, bne_iff_ne, String.ext_iff]

/-- Joining a list that begins with two empty strings puts the separator
text at the front of the result. -/
theorem pyJoin_sep_head (x : String) (l : List String) :
    (pyJoin " | " ("" :: x :: l)).data = ' ' :: '|' :: ' ' :: (pyJoin " | " (x :: l)).data := by
  show (("" : String) ++ " | " ++ pyJoin " | " (x :: l)).data = _
  simp [String.data_append]

/-- A MIME type outside the spec's supported set is no key of
`MIMETYPES` (the keys are exactly the spec's supported set). -/
theorem mimetypesLookup_eq_none (m : String) (h : m ∉ specSupportedTypes) :
    mimetypesLookup m = none := by
  have h' : m ∉ MIMETYPES.map Prod.fst := by
    rw [show MIMETYPES.map Prod.fst = specSupportedTypes from rfl]
    exact h
  simp only [mimetypesLookup, Option.map_eq_none']
  rw [List.find?_eq_none]
  intro p hp hbeq
  have hpm : p.1 = m := by simpa using hbeq
  exact h' (hpm ▸ List.mem_map_of_mem Prod.fst hp)

/-- The loop of `run_ingestion_job` appends, in listing order, exactly
the records of the files that pass the inclusion check. -/
theorem processFiles_ok_filterMap (drive_service : DriveService)
    (csvReader : String → List (List String)) :
    ∀ (files : List DriveFile) (recs : List Record),
      processFiles drive_service csvReader files = .ok recs →
      recs = files.filterMap (recordFor drive_service csvReader) := by
  intro files
  induction files with
  | nil =>
    intro recs h
    simp only [processFiles, Except.ok.injEq] at h
    simp [h.symm]
  | cons file rest ih =>
    intro recs h
    simp only [processFiles] at h
    rw [List.filterMap_cons]
    cases hx : extract_file_content drive_service csvReader file.id file.mimeType file.name with
    | error e =>
      rw [hx] at h
      simp at h
    | ok et =>
      rw [hx] at h
      cases hr : processFiles drive_service csvReader rest with
      | error e =>
        rw [hr] at h
        cases et <;> simp at h
      | ok rs =>
        rw [hr] at h
        have hrest := ih rs hr
        cases et with
        | none =>
          simp only [Except.ok.injEq] at h
          simp only [recordFor, hx]
          exact h ▸ hrest
        | some s =>
          dsimp only at h
          by_cases hf : includeFilter s = true
          · rw [if_pos hf] at h
            simp only [Except.ok.injEq] at h
            subst h
            simp only [recordFor, hx, if_pos hf, List.cons.injEq]
            exact ⟨trivial, hrest⟩
          · rw [if_neg hf] at h
            simp only [Except.ok.injEq] at h
            subst h
            simp only [recordFor, hx, if_neg hf]
            exact hrest

/-! ## Claims -/

/-- Claim C1 (code bug, evaluated at the failing input): a spreadsheet
whose CSV export fails produces the diagnostic string
"Sheet Export Failed: ...", which is non-empty and starts with none of
the three markers the inclusion check tests ("Content extraction
skipped", "Export Failed", "Download Failed") — so the failed file's
record IS included in the uploaded output, its diagnostic standing as
`text_content`, contradicting the claim that every per-file extraction
failure diagnostic causes exclusion. -/
theorem c1_sheet_failure_record_included :
    run_ingestion_job svcSheetFail rNone [sheetFile] =
      .ok (JobOutcome.uploaded
        [{ document_id := "s1", file_name := "budget",
           text_content := "Sheet Export Failed: quotaExceeded",
           last_modified_date := "2026-01-01T00:00:00.000Z",
           source := "Google Drive" }]) := by decide

/-- Claim C2 (code bug, evaluated at the failing input): for declared
content type "application/pdf" the router returns Python `None` for
every oracle — never the fixed placeholder.  "application/pdf" is a key
of `MIMETYPES`, so the native branch is taken; its export format is
neither "text/csv" nor "text/plain", both inner tests fail, and the
function falls off its end.  The placeholder branch of `download_file`
is unreachable for PDFs. -/
theorem c2_pdf_returns_none (drive_service : DriveService)
    (csvReader : String → List (List String)) (file_id file_name : String) :
    extract_file_content drive_service csvReader file_id "application/pdf" file_name =
      .ok none := rfl

/-- Claim C3 (code bug, evaluated at the failing input): with an oracle
whose export endpoint yields "EXPORTED" and whose download endpoint
yields "DOWNLOADED", a file declared "text/plain" comes back "EXPORTED":
the router sends plain text to `export_google_doc` (the Document
Exporter), not to `download_file` (the Binary Downloader), because
"text/plain" is a key of `MIMETYPES`; and "application/pdf" reaches no
delegate at all (`None`). -/
theorem c3_text_plain_routed_to_exporter :
    extract_file_content svcDistinct rNone "f1" "text/plain" "notes.txt" =
      .ok (some "EXPORTED") ∧
    download_file svcDistinct "f1" "text/plain" = .ok "DOWNLOADED" ∧
    extract_file_content svcDistinct rNone "f2" "application/pdf" "doc.pdf" =
      .ok none := by decide

/-- Claim C4 counterexample: "text/csv" is not in the spec's supported
set, yet the router does not return the empty string for it — it
delegates to `download_file` and returns the downloaded payload
("text/csv" is a value of `MIMETYPES`, so the binary branch catches
it). -/
theorem c4_counterexample_csv :
    "text/csv" ∉ specSupportedTypes ∧
    extract_file_content svcDistinct rNone "f1" "text/csv" "table.csv" =
      .ok (some "DOWNLOADED") ∧
    extract_file_content svcDistinct rNone "f1" "text/csv" "table.csv" ≠
      .ok (some "") := by decide

/-- Claim C4 as amended: for every declared content type outside the
supported set AND other than "text/csv", the router returns the empty
string — for every oracle, i.e. without any network call — and the
file's record is excluded from the output. -/
theorem c4_amended_unsupported_skipped (drive_service : DriveService)
    (csvReader : String → List (List String)) (mime : String)
    (h1 : mime ∉ specSupportedTypes) (h2 : mime ≠ "text/csv") :
    (∀ file_id file_name,
      extract_file_content drive_service csvReader file_id mime file_name =
        .ok (some "")) ∧
    (∀ file : DriveFile, file.mimeType = mime →
      recordFor drive_service csvReader file = none) := by
  have hkeys : mimetypesLookup mime = none := mimetypesLookup_eq_none mime h1
  have hvals : mime ∉ mimetypesValues := by
    simp only [specSupportedTypes, List.mem_cons, List.not_mem_nil, or_false, not_or] at h1
    obtain ⟨n1, n2, n3, n4, n5⟩ := h1
    simp only [mimetypesValues, MIMETYPES, List.map_cons, List.map_nil, List.mem_cons,
      List.not_mem_nil, or_false, not_or]
    exact ⟨n4, n4, h2, n4, n5⟩
  have hext : ∀ file_id file_name,
      extract_file_content drive_service csvReader file_id mime file_name =
        .ok (some "") := by
    intro file_id file_name
    unfold extract_file_content
    rw [hkeys]
    rw [if_neg hvals]
  refine ⟨hext, ?_⟩
  intro file hf
  unfold recordFor
  rw [hf, hext file.id file.name]
  rfl

/-- Witness for the amended C4 at the concrete unsupported type
"image/png". -/
theorem c4_amended_witness :
    extract_file_content svcDistinct rNone "f9" "image/png" "pic.png" =
      .ok (some "") ∧
    recordFor svcDistinct rNone pngFile = none :=
  ⟨(c4_amended_unsupported_skipped svcDistinct rNone "image/png" (by decide)
      (by decide)).1 "f9" "pic.png",
   (c4_amended_unsupported_skipped svcDistinct rNone "image/png" (by decide)
      (by decide)).2 pngFile rfl⟩

/-- Claim C5 counterexample: a download whose bytes are not valid UTF-8
(the single byte 0xFF) for a non-PDF type makes `download_file` raise
`UnicodeDecodeError` — an exception propagates out of the downloader
instead of a diagnostic string, because its handler catches only
`HttpError`. -/
theorem c5_counterexample_decode_raises :
    download_file svcBadBytes "f1" "text/plain" =
      .error PyExc.unicodeDecodeError := by decide

/-- Claim C5 as amended: a transport error still collapses to the
diagnostic string "Download Failed: ...", but a decode error (bytes not
valid UTF-8, non-PDF type) raises `UnicodeDecodeError`, which propagates
out of the downloader uncaught. -/
theorem c5_amended_transport_caught_decode_raises (drive_service : DriveService)
    (file_id mime_type : String) :
    (∀ e, drive_service.getMedia file_id = .error e →
      download_file drive_service file_id mime_type =
        .ok ("Download Failed: " ++ e)) ∧
    (∀ bs, drive_service.getMedia file_id = .ok bs →
      mime_type ≠ "application/pdf" → decodeUtf8 bs = none →
      download_file drive_service file_id mime_type =
        .error PyExc.unicodeDecodeError) := by
  constructor
  · intro e he
    unfold download_file
    rw [he]
  · intro bs hbs hmt hdec
    unfold download_file
    rw [hbs]
    dsimp only
    rw [if_neg (by simpa using hmt), hdec]

/-- Witness for the amended C5: both branches at concrete inputs. -/
theorem c5_amended_witness :
    download_file svcErr "f1" "text/plain" = .ok "Download Failed: boom" ∧
    download_file svcBadBytes "f2" "text/plain" =
      .error PyExc.unicodeDecodeError :=
  ⟨(c5_amended_transport_caught_decode_raises svcErr "f1" "text/plain").1
      "boom" rfl,
   (c5_amended_transport_caught_decode_raises svcBadBytes "f2" "text/plain").2
      [0xFF] rfl (by decide) (by decide)⟩

/-- Claim C6 (confirmed): when the CSV export of a sheet decodes and
parses to the rows ["a","","b"] and ["","c",""], the flattener returns
exactly "a b | c" — empty cells dropped, cells joined with one space,
rows joined with " | " (the general joining rule is the translated loop
of `extract_sheet_content` itself; this instance exercises it). -/
theorem c6_flattener_two_rows (drive_service : DriveService)
    (csvReader : String → List (List String)) (file_id : String)
    (bs : List Nat) (s : String)
    (hexp : drive_service.exportMedia file_id "text/csv" = .ok bs)
    (hdec : decodeUtf8 bs = some s)
    (hrows : csvReader s = [["a", "", "b"], ["", "c", ""]]) :
    extract_sheet_content drive_service csvReader file_id = .ok "a b | c" := by
  unfold extract_sheet_content
  rw [hexp]
  dsimp only
  rw [hdec]
  dsimp only
  rw [hrows]
  rfl

/-- Witness for C6 at a concrete oracle: CSV bytes "a,,b\n,c,\n". -/
theorem c6_witness :
    extract_sheet_content svcCsvAB rAB "f1" = .ok "a b | c" :=
  c6_flattener_two_rows svcCsvAB rAB "f1" (strBytes "a,,b\n,c,\n")
    "a,,b\n,c,\n" rfl (by decide) rfl

/-- Claim C7 (confirmed): a successful document export (native document
or native presentation type) whose byte payload decodes as UTF-8 makes
the router return exactly the decoded string, untrimmed and otherwise
untransformed. -/
theorem c7_doc_export_exact (drive_service : DriveService)
    (csvReader : String → List (List String))
    (file_id file_mime file_name : String) (bs : List Nat) (s : String)
    (hm : file_mime = "application/vnd.google-apps.document" ∨
      file_mime = "application/vnd.google-apps.presentation")
    (hexp : drive_service.exportMedia file_id "text/plain" = .ok bs)
    (hdec : decodeUtf8 bs = some s) :
    extract_file_content drive_service csvReader file_id file_mime file_name =
      .ok (some s) := by
  have hexport : export_google_doc drive_service file_id "text/plain" = .ok s := by
    unfold export_google_doc
    rw [hexp]
    dsimp only
    rw [hdec]
  have hgoal : (export_google_doc drive_service file_id "text/plain").map some =
      (Except.ok (some s) : Except PyExc (Option String)) := by
    rw [hexport]
    rfl
  rcases hm with h | h
  · subst h
    exact hgoal
  · subst h
    exact hgoal

/-- Witness for C7: a document whose export is the bytes of "Hello". -/
theorem c7_witness :
    extract_file_content svcHello rNone "d1"
      "application/vnd.google-apps.document" "notes" = .ok (some "Hello") :=
  c7_doc_export_exact svcHello rNone "d1"
    "application/vnd.google-apps.document" "notes" (strBytes "Hello") "Hello"
    (Or.inl rfl) rfl (by decide)

/-- Claim C8 counterexample: a run over one native document whose export
bytes are invalid UTF-8: no file yields a record passing the inclusion
check (the extraction raises before producing one) and indeed no upload
happens, but the run does not complete with the informational outcome —
it aborts with the uncaught `UnicodeDecodeError`. -/
theorem c8_counterexample_decode_crash :
    run_ingestion_job svcBadBytes rNone [docFile] =
      .error PyExc.unicodeDecodeError := by decide

/-- Claim C8 as amended: when the loop completes without raising and
collects no record — in particular whenever the listing returns zero
files — the upload is skipped and the run ends with the informational
outcome; when the loop raises, the run aborts with that exception before
any upload. -/
theorem c8_amended_no_records_no_upload (drive_service : DriveService)
    (csvReader : String → List (List String)) (files : List DriveFile) :
    (processFiles drive_service csvReader files = .ok [] →
      run_ingestion_job drive_service csvReader files =
        .ok JobOutcome.skippedUpload) ∧
    (∀ e, processFiles drive_service csvReader files = .error e →
      run_ingestion_job drive_service csvReader files = .error e) := by
  constructor
  · intro h
    unfold run_ingestion_job
    rw [h]
    rfl
  · intro e h
    unfold run_ingestion_job
    rw [h]

/-- Witness for the amended C8: the zero-file run skips the upload, and
a run whose only extraction raises aborts with the exception. -/
theorem c8_amended_witness :
    run_ingestion_job svcDistinct rNone [] = .ok JobOutcome.skippedUpload ∧
    run_ingestion_job svcBadBytes rNone [docFile] =
      .error PyExc.unicodeDecodeError :=
  ⟨(c8_amended_no_records_no_upload svcDistinct rNone []).1 rfl,
   (c8_amended_no_records_no_upload svcBadBytes rNone [docFile]).2
      PyExc.unicodeDecodeError (by decide)⟩

/-- Claim C9 (confirmed): whenever a run uploads, the uploaded records
are exactly the listing's files in listing order, each mapped to its
record, with the non-included files removed — `List.filterMap` preserves
order, so the job never reorders records. -/
theorem c9_upload_order_matches_listing (drive_service : DriveService)
    (csvReader : String → List (List String)) (files : List DriveFile)
    (recs : List Record)
    (h : run_ingestion_job drive_service csvReader files =
      .ok (JobOutcome.uploaded recs)) :
    recs = files.filterMap (recordFor drive_service csvReader) := by
  unfold run_ingestion_job at h
  cases hp : processFiles drive_service csvReader files with
  | error e =>
    rw [hp] at h
    simp at h
  | ok rs =>
    rw [hp] at h
    dsimp only at h
    by_cases he : rs.isEmpty = true
    · rw [if_pos he] at h
      simp at h
    · rw [if_neg he] at h
      simp only [Except.ok.injEq, JobOutcome.uploaded.injEq] at h
      subst h
      exact processFiles_ok_filterMap drive_service csvReader files rs hp

/-- Witness for C9: a two-file run (one included document, one skipped
image) whose single uploaded record is the filtered map of the files. -/
theorem c9_witness :
    [mkRecord docFile "Hello"] =
      [docFile, pngFile].filterMap (recordFor svcHello rNone) :=
  c9_upload_order_matches_listing svcHello rNone [docFile, pngFile]
    [mkRecord docFile "Hello"] (by decide)

/-- Claim C10 (confirmed): a spreadsheet whose CSV export parses to at
least two rows of only empty cells flattens to the string of empty
row-strings joined by " | " — separator text only; that string is
non-empty, starts with a blank so it matches no failure marker, and the
file's record is therefore included in the output with the
separator-only text as its content. -/
theorem c10_all_empty_cells_included (drive_service : DriveService)
    (csvReader : String → List (List String)) (file : DriveFile)
    (bs : List Nat) (s : String) (rows : List (List String))
    (hmime : file.mimeType = "application/vnd.google-apps.spreadsheet")
    (hexp : drive_service.exportMedia file.id "text/csv" = .ok bs)
    (hdec : decodeUtf8 bs = some s)
    (hrows : csvReader s = rows)
    (hlen : 2 ≤ rows.length)
    (hcells : ∀ row ∈ rows, ∀ c ∈ row, c = "") :
    extract_sheet_content drive_service csvReader file.id =
      .ok (pyJoin " | " (rows.map fun _ => "")) ∧
    pyJoin " | " (rows.map fun _ => "") ≠ "" ∧
    includeFilter (pyJoin " | " (rows.map fun _ => "")) = true ∧
    recordFor drive_service csvReader file =
      some (mkRecord file (pyJoin " | " (rows.map fun _ => ""))) := by
  have hmap : rows.map (fun row => pyJoin " " (row.filter (fun c => c != ""))) =
      rows.map (fun _ => "") := by
    apply List.map_congr_left
    intro row hrow
    have hfil : row.filter (fun c => c != "") = [] := by
      rw [List.filter_eq_nil_iff]
      intro c hc
      simp [hcells row hrow c hc]
    rw [hfil]
    rfl
  have h1 : extract_sheet_content drive_service csvReader file.id =
      .ok (pyJoin " | " (rows.map fun _ => "")) := by
    unfold extract_sheet_content
    rw [hexp]
    dsimp only
    rw [hdec]
    dsimp only
    rw [hrows, hmap]
  rcases rows with _ | ⟨r1, rows1⟩
  · simp at hlen
  rcases rows1 with _ | ⟨r2, rest⟩
  · simp at hlen
  have hSdata : (pyJoin " | " ((r1 :: r2 :: rest).map fun _ => "")).data =
      ' ' :: '|' :: ' ' :: (pyJoin " | " ("" :: rest.map fun _ => "")).data :=
    pyJoin_sep_head "" (rest.map fun _ => "")
  have h2 : pyJoin " | " ((r1 :: r2 :: rest).map fun _ => "") ≠ "" := by
    intro hS
    rw [hS] at hSdata
    simp at hSdata
  have hSmk : pyJoin " | " ((r1 :: r2 :: rest).map fun _ => "") =
      String.mk (' ' :: '|' :: ' ' ::
        (pyJoin " | " ("" :: rest.map fun _ => "")).data) :=
    String.ext_iff.mpr hSdata
  have h3 : includeFilter (pyJoin " | " ((r1 :: r2 :: rest).map fun _ => "")) =
      true := by
    rw [hSmk]
    exact includeFilter_space_head _
  have h4 : recordFor drive_service csvReader file =
      some (mkRecord file (pyJoin " | " ((r1 :: r2 :: rest).map fun _ => ""))) := by
    unfold recordFor
    rw [hmime]
    rw [show extract_file_content drive_service csvReader file.id
        "application/vnd.google-apps.spreadsheet" file.name =
      (extract_sheet_content drive_service csvReader file.id).map some from rfl]
    rw [h1]
    simp only [Except.map]
    rw [if_pos h3]
  exact ⟨h1, h2, h3, h4⟩

/-- Witness for C10: CSV bytes ",\n,\n" parsing to two rows of two empty
cells each; the flattened content is the separator string " | " and the
sheet's record is included with it. -/
theorem c10_witness :
    extract_sheet_content svcCsvEmpty rEmptyCells "s1" =
      .ok (pyJoin " | " ([["", ""], ["", ""]].map fun _ => "")) ∧
    pyJoin " | " ([["", ""], ["", ""]].map fun _ => "") ≠ "" ∧
    includeFilter (pyJoin " | " ([["", ""], ["", ""]].map fun _ => "")) = true ∧
    recordFor svcCsvEmpty rEmptyCells sheetFile =
      some (mkRecord sheetFile
        (pyJoin " | " ([["", ""], ["", ""]].map fun _ => ""))) :=
  c10_all_empty_cells_included svcCsvEmpty rEmptyCells sheetFile
    (strBytes ",\n,\n") ",\n,\n" [["", ""], ["", ""]] rfl rfl (by decide) rfl
    (by decide) (by decide)
